import Mathlib

/-!
Verification of the update-classification and reply-routing core of a
Telegram webhook bot (`TelegramExecutionContext`).

The embedding models the fields of the inbound `TelegramUpdate` that the
context reads, JavaScript truthiness for the guards the code uses
(`update.message?.text`, `update.message?.chat.id`, ...), and every outbound
Telegram API call as an `ApiCall` descriptor.  An operation is modelled as a
pure function from the context, the API behaviour (which call succeeds with
which response, or throws which error) and the arguments, to the ordered
trace of attempted API calls together with the returned value: `Except.ok`
for a normal return (`some response` or `none` for JavaScript `null`) and
`Except.error` for a propagated exception.
-/

/-- Telegram chat object; only the `id` field is read by the context. -/
structure TelegramChat where
  id : Int
deriving DecidableEq

/-- Telegram message object, restricted to the fields the context reads.
`photo` is an array in the API (an array is always truthy in JavaScript,
so only presence matters) and `document` is an object (same). -/
structure TelegramMessage where
  message_id : Int
  chat : TelegramChat
  text : Option String := none
  photo : Option (List String) := none
  document : Option String := none
deriving DecidableEq

/-- Telegram inline query object; `id` and `query` are read. -/
structure TelegramInlineQuery where
  id : String
  query : String
deriving DecidableEq

/-- Telegram callback query object; the code dereferences
`callback_query?.message.chat.id` without an optional chain after
`message`, so `message` is modelled as a required field. -/
structure TelegramCallbackQuery where
  id : String
  message : TelegramMessage
deriving DecidableEq

/-- Telegram business message object; the fields the context reads. -/
structure TelegramBusinessMessage where
  chat : TelegramChat
  business_connection_id : String
deriving DecidableEq

/-- The inbound update: each Telegram update shape the classifier probes. -/
structure TelegramUpdate where
  message : Option TelegramMessage := none
  inline_query : Option TelegramInlineQuery := none
  callback_query : Option TelegramCallbackQuery := none
  business_message : Option TelegramBusinessMessage := none
deriving DecidableEq

/-- The bot identity: API base url (`bot.api.toString()`) and token. -/
structure TelegramBot where
  api : String
  token : String
deriving DecidableEq

/-- JavaScript truthiness of an optional string: present and nonempty. -/
def truthyStr : Option String → Bool
  | some s => s != ""
  | none => false

/-- JavaScript truthiness of an optional number: present and nonzero. -/
def truthyInt : Option Int → Bool
  | some n => n != 0
  | none => false

/-- `determineUpdateType` from the source: first-match classification of the
update into a kind tag. -/
def determineUpdateType (u : TelegramUpdate) : String :=
  if (u.message.bind TelegramMessage.photo).isSome then "photo"
  else if truthyStr (u.message.bind TelegramMessage.text) then "message"
  else if truthyStr (u.inline_query.map TelegramInlineQuery.query) then "inline"
  else if (u.message.bind TelegramMessage.document).isSome then "document"
  else if truthyStr (u.callback_query.map TelegramCallbackQuery.id) then "callback"
  else if u.business_message.isSome then "business_message"
  else ""

/-- `getChatId` from the source: the message chat id if truthy, else the
business message chat id if truthy, else the empty-string sentinel. -/
def getChatId (u : TelegramUpdate) : String :=
  if truthyInt (u.message.map fun m => m.chat.id) then
    toString ((u.message.map fun m => m.chat.id).getD 0)
  else if truthyInt (u.business_message.map fun b => b.chat.id) then
    toString ((u.business_message.map fun b => b.chat.id).getD 0)
  else ""

/-- `getMessageId` from the source: `update.message?.message_id.toString() ?? ""`. -/
def getMessageId (u : TelegramUpdate) : String :=
  (u.message.map fun m => toString m.message_id).getD ""

/-- `update.business_message?.business_connection_id.toString() ?? ""`. -/
def businessConnectionId (u : TelegramUpdate) : String :=
  (u.business_message.map fun b => b.business_connection_id).getD ""

/-- `update.inline_query?.id.toString() ?? ""`. -/
def inlineQueryId (u : TelegramUpdate) : String :=
  (u.inline_query.map fun q => q.id).getD ""

/-- `update.callback_query?.message.chat.id`, as an optional number. -/
def callbackChatId (u : TelegramUpdate) : Option Int :=
  u.callback_query.map fun cq => cq.message.chat.id

/-- Modelled from the spec: the inline query result wrapper classes
(`TelegramInlineQueryResultArticle`, `TelegramInlineQueryResultPhoto`,
`TelegramInlineQueryResultVideo`) are imported from type files not present
in the source tree.  The spec describes them as an article-type result
wrapping a title, content and parse mode, a photo-result type wrapping a
photo, and a video-result type wrapping a video. -/
inductive TelegramInlineQueryResult where
  | article (title : String) (content : String) (parse_mode : String)
  | photo (photo : String)
  | video (video : String)
deriving DecidableEq

/-- A value in an outbound parameter mapping. -/
inductive TgValue where
  | str (s : String)
  | num (n : Int)
  | bool (b : Bool)
  | arr (results : List TelegramInlineQueryResult)
deriving DecidableEq

/-- A parameter mapping, as the ordered key-value list a JavaScript object
literal builds; a later binding for the same key shadows an earlier one,
which `jsLookup` accounts for. -/
abbrev TgParams := List (String × TgValue)

/-- Lookup in a parameter mapping with JavaScript object semantics: the
last binding of a key wins. -/
def jsLookup (ps : TgParams) (k : String) : Option TgValue :=
  (ps.reverse.find? fun kv => kv.fst == k).map Prod.snd

/-- The keys of a parameter mapping, in binding order. -/
def jsKeys (ps : TgParams) : List String := ps.map Prod.fst

/-- A descriptor of one outbound Telegram API call: which endpoint, the API
base url, and the parameter mapping the context built. -/
inductive ApiCall where
  | sendMessage (url : String) (params : TgParams)
  | sendPhoto (url : String) (params : TgParams)
  | sendVideo (url : String) (params : TgParams)
  | sendChatAction (url : String) (params : TgParams)
  | answerInline (url : String) (params : TgParams)
  | getFile (url : String) (params : TgParams) (token : String)
deriving DecidableEq

/-- The behaviour of the remote API: for each attempted call, either a
response body or a thrown error. -/
abbrev ApiBehavior := ApiCall → Except String String

/-- The execution context: bot identity, the update, and the kind tag
stored in the `update_type` field. -/
structure TelegramExecutionContext where
  bot : TelegramBot
  update : TelegramUpdate
  update_type : String
deriving DecidableEq

/-- The constructor of `TelegramExecutionContext`: stores the bot and the
update and derives `update_type` once by running the classifier. -/
def mkContext (bot : TelegramBot) (update : TelegramUpdate) : TelegramExecutionContext :=
  { bot := bot, update := update, update_type := determineUpdateType update }

/-- Result of a reply-style operation: the ordered trace of attempted API
calls, and the returned value (`Except.ok none` models a `null` return). -/
abbrev ReplyResult := List ApiCall × Except String (Option String)

/-- One awaited API call inside a `try` block: the call is attempted (it
enters the trace) and its failure propagates to the enclosing catch. -/
def attemptCall (beh : ApiBehavior) (c : ApiCall) : ReplyResult :=
  ([c], (beh c).map some)

/-- One awaited API call wrapped in its own try/catch that swallows the
error and returns `null`. -/
def swallowCall (beh : ApiBehavior) (c : ApiCall) : ReplyResult :=
  match beh c with
  | Except.ok r => ([c], Except.ok (some r))
  | Except.error _ => ([c], Except.ok none)

/-- A `try { ... } catch { handler }` block: a normal result passes through,
a thrown error runs the handler on the trace accumulated so far. -/
def tryCatchBlock (t : ReplyResult) (handler : List ApiCall → ReplyResult) : ReplyResult :=
  match t with
  | (tr, Except.ok v) => (tr, Except.ok v)
  | (tr, Except.error _) => handler tr

/-- The localized degraded-notification text used by `reply`'s catch block. -/
def replyFailText : String := "消息发送失败，请稍后再试。"

/-- The localized degraded-notification text used by `replyPhoto`. -/
def photoFailText : String := "图片发送失败，请稍后再试。"

/-- The localized degraded-notification text used by `replyVideo`. -/
def videoFailText : String := "视频发送失败，请稍后再试。"

/-- The localized degraded-notification text used by `getFile`. -/
def fileFailText : String := "获取文件失败，请稍后再试。"

/-- Parameters of the direct text send built by `reply` for the
message/photo/document kinds: the caller options spread first, then chat
id, reply-to message id, text and parse mode. -/
def replyDirectParams (ctx : TelegramExecutionContext)
    (message parse_mode : String) (options : TgParams) : TgParams :=
  options ++ [("chat_id", TgValue.str (getChatId ctx.update)),
              ("reply_to_message_id", TgValue.str (getMessageId ctx.update)),
              ("text", TgValue.str message),
              ("parse_mode", TgValue.str parse_mode)]

/-- Parameters of the text send built by `reply` for the business_message
kind: no options spread and no reply-to, a business connection id instead. -/
def replyBusinessParams (ctx : TelegramExecutionContext)
    (message parse_mode : String) : TgParams :=
  [("chat_id", TgValue.str (getChatId ctx.update)),
   ("text", TgValue.str message),
   ("business_connection_id", TgValue.str (businessConnectionId ctx.update)),
   ("parse_mode", TgValue.str parse_mode)]

/-- Parameters of the text send built by `reply` for the callback kind:
addressed to the callback message's chat id, no reply-to. -/
def replyCallbackParams (ctx : TelegramExecutionContext)
    (message parse_mode : String) (options : TgParams) : TgParams :=
  options ++ [("chat_id", TgValue.str (toString ((callbackChatId ctx.update).getD 0))),
              ("text", TgValue.str message),
              ("parse_mode", TgValue.str parse_mode)]

/-- Parameters of a degraded notification keyed by chat id. -/
def errorDirectParams (ctx : TelegramExecutionContext) (text : String) : TgParams :=
  [("chat_id", TgValue.str (getChatId ctx.update)),
   ("text", TgValue.str text),
   ("parse_mode", TgValue.str "")]

/-- Parameters of a degraded notification for the business_message kind. -/
def errorBusinessParams (ctx : TelegramExecutionContext) (text : String) : TgParams :=
  [("chat_id", TgValue.str (getChatId ctx.update)),
   ("text", TgValue.str text),
   ("business_connection_id", TgValue.str (businessConnectionId ctx.update)),
   ("parse_mode", TgValue.str "")]

/-- Parameters of a degraded notification for the callback kind. -/
def errorCallbackParams (ctx : TelegramExecutionContext) (text : String) : TgParams :=
  [("chat_id", TgValue.str (toString ((callbackChatId ctx.update).getD 0))),
   ("text", TgValue.str text),
   ("parse_mode", TgValue.str "")]

/-- Parameters of the photo send built by `replyPhoto`. -/
def sendPhotoParams (ctx : TelegramExecutionContext)
    (photo caption : String) (options : TgParams) : TgParams :=
  options ++ [("chat_id", TgValue.str (getChatId ctx.update)),
              ("reply_to_message_id", TgValue.str (getMessageId ctx.update)),
              ("photo", TgValue.str photo),
              ("caption", TgValue.str caption)]

/-- Parameters of the inline answer built by `replyPhoto` (no options). -/
def photoInlineParams (ctx : TelegramExecutionContext) (photo : String) : TgParams :=
  [("inline_query_id", TgValue.str (inlineQueryId ctx.update)),
   ("results", TgValue.arr [TelegramInlineQueryResult.photo photo])]

/-- Parameters of the video send built by `replyVideo`. -/
def sendVideoParams (ctx : TelegramExecutionContext)
    (video : String) (options : TgParams) : TgParams :=
  options ++ [("chat_id", TgValue.str (getChatId ctx.update)),
              ("reply_to_message_id", TgValue.str (getMessageId ctx.update)),
              ("video", TgValue.str video)]

/-- Parameters of the inline answer built by `replyVideo` (options spread). -/
def videoInlineParams (ctx : TelegramExecutionContext)
    (video : String) (options : TgParams) : TgParams :=
  options ++ [("inline_query_id", TgValue.str (inlineQueryId ctx.update)),
              ("results", TgValue.arr [TelegramInlineQueryResult.video video])]

/-- Parameters of the chat action built by `sendTyping` for direct kinds. -/
def typingParams (ctx : TelegramExecutionContext) : TgParams :=
  [("chat_id", TgValue.str (getChatId ctx.update)),
   ("action", TgValue.str "typing")]

/-- Parameters of the chat action built by `sendTyping` for the
business_message kind. -/
def typingBusinessParams (ctx : TelegramExecutionContext) : TgParams :=
  [("business_connection_id", TgValue.str (businessConnectionId ctx.update)),
   ("chat_id", TgValue.str (getChatId ctx.update)),
   ("action", TgValue.str "typing")]

/-- Parameters of the inline answer built by `replyInline`: one
article-type result. -/
def articleInlineParams (ctx : TelegramExecutionContext)
    (title message parse_mode : String) : TgParams :=
  [("inline_query_id", TgValue.str (inlineQueryId ctx.update)),
   ("results", TgValue.arr [TelegramInlineQueryResult.article title message parse_mode])]

/-- Parameters of the inline answer built by `answerInlineQuery`. -/
def answerInlineParams (ctx : TelegramExecutionContext)
    (results : List TelegramInlineQueryResult) : TgParams :=
  [("inline_query_id", TgValue.str (inlineQueryId ctx.update)),
   ("results", TgValue.arr results)]

/-- `sendErrorMessage` from the source: send a localized error text through
the channel matching the context kind (chat id for message/photo/document,
chat id plus business connection id for business_message, the callback
message's chat id for callback when truthy), swallowing its own failure;
for any other kind, no call is made and `null` is returned. -/
def sendErrorMessage (ctx : TelegramExecutionContext) (beh : ApiBehavior)
    (errorMessage : String) : ReplyResult :=
  if ctx.update_type = "message" ∨ ctx.update_type = "photo" ∨ ctx.update_type = "document" then
    swallowCall beh (ApiCall.sendMessage ctx.bot.api (errorDirectParams ctx errorMessage))
  else if ctx.update_type = "business_message" then
    swallowCall beh (ApiCall.sendMessage ctx.bot.api (errorBusinessParams ctx errorMessage))
  else if ctx.update_type = "callback" ∧ truthyInt (callbackChatId ctx.update) = true then
    swallowCall beh (ApiCall.sendMessage ctx.bot.api (errorCallbackParams ctx errorMessage))
  else ([], Except.ok none)

/-- `replyInline` from the source: answer the inline query with one
article-type result; any failure is logged only and `null` returned. -/
def replyInline (ctx : TelegramExecutionContext) (beh : ApiBehavior)
    (title : String) (message : String) (parse_mode : String := "") : ReplyResult :=
  if ctx.update_type = "inline" then
    swallowCall beh (ApiCall.answerInline ctx.bot.api (articleInlineParams ctx title message parse_mode))
  else ([], Except.ok none)

/-- `reply` from the source: route the text reply by `update_type`; on a
thrown send, the catch block attempts one degraded notification (for the
message/photo/document kinds only), swallows its failure, and returns
`null`. -/
def reply (ctx : TelegramExecutionContext) (beh : ApiBehavior)
    (message : String) (parse_mode : String := "") (options : TgParams := []) : ReplyResult :=
  tryCatchBlock
    (match ctx.update_type with
     | "message" | "photo" | "document" =>
         attemptCall beh (ApiCall.sendMessage ctx.bot.api
           (replyDirectParams ctx message parse_mode options))
     | "business_message" =>
         attemptCall beh (ApiCall.sendMessage ctx.bot.api
           (replyBusinessParams ctx message parse_mode))
     | "callback" =>
         if truthyInt (callbackChatId ctx.update) = true then
           attemptCall beh (ApiCall.sendMessage ctx.bot.api
             (replyCallbackParams ctx message parse_mode options))
         else ([], Except.ok none)
     | "inline" => replyInline ctx beh "Response" message parse_mode
     | _ => ([], Except.ok none))
    (fun tr =>
      if ctx.update_type = "message" ∨ ctx.update_type = "photo" ∨ ctx.update_type = "document" then
        (tr ++ [ApiCall.sendMessage ctx.bot.api (errorDirectParams ctx replyFailText)], Except.ok none)
      else (tr, Except.ok none))

/-- `replyPhoto` from the source: photo/message kinds send a photo with
reply-to; inline answers with one photo-result (options not forwarded on
that branch); otherwise no-op; on a thrown call, `sendErrorMessage` is run
and `null` returned. -/
def replyPhoto (ctx : TelegramExecutionContext) (beh : ApiBehavior)
    (photo : String) (caption : String := "") (options : TgParams := []) : ReplyResult :=
  tryCatchBlock
    (match ctx.update_type with
     | "photo" | "message" =>
         attemptCall beh (ApiCall.sendPhoto ctx.bot.api (sendPhotoParams ctx photo caption options))
     | "inline" =>
         attemptCall beh (ApiCall.answerInline ctx.bot.api (photoInlineParams ctx photo))
     | _ => ([], Except.ok none))
    (fun tr => (tr ++ (sendErrorMessage ctx beh photoFailText).fst, Except.ok none))

/-- `replyVideo` from the source: only the message kind sends a video with
reply-to; inline answers with one video-result (options spread on that
branch); otherwise no-op; on a thrown call, `sendErrorMessage` is run and
`null` returned. -/
def replyVideo (ctx : TelegramExecutionContext) (beh : ApiBehavior)
    (video : String) (options : TgParams := []) : ReplyResult :=
  tryCatchBlock
    (match ctx.update_type with
     | "message" =>
         attemptCall beh (ApiCall.sendVideo ctx.bot.api (sendVideoParams ctx video options))
     | "inline" =>
         attemptCall beh (ApiCall.answerInline ctx.bot.api (videoInlineParams ctx video options))
     | _ => ([], Except.ok none))
    (fun tr => (tr ++ (sendErrorMessage ctx beh videoFailText).fst, Except.ok none))

/-- `sendTyping` from the source: message/photo/document kinds send the
typing chat action keyed by chat id; business_message adds the business
connection id; otherwise no-op; the catch block only logs and returns
`null`, attempting no further call. -/
def sendTyping (ctx : TelegramExecutionContext) (beh : ApiBehavior) : ReplyResult :=
  tryCatchBlock
    (match ctx.update_type with
     | "message" | "photo" | "document" =>
         attemptCall beh (ApiCall.sendChatAction ctx.bot.api (typingParams ctx))
     | "business_message" =>
         attemptCall beh (ApiCall.sendChatAction ctx.bot.api (typingBusinessParams ctx))
     | _ => ([], Except.ok none))
    (fun tr => (tr, Except.ok none))

/-- The single API call `getFile` issues. -/
def getFileCall (ctx : TelegramExecutionContext) (file_id : String) : ApiCall :=
  ApiCall.getFile ctx.bot.api [("file_id", TgValue.str file_id)] ctx.bot.token

/-- `getFile` from the source: fetch the file; on a thrown fetch, run
`sendErrorMessage` and then re-raise the original error. -/
def getFile (ctx : TelegramExecutionContext) (beh : ApiBehavior)
    (file_id : String) : List ApiCall × Except String String :=
  match beh (getFileCall ctx file_id) with
  | Except.ok r => ([getFileCall ctx file_id], Except.ok r)
  | Except.error e =>
      (getFileCall ctx file_id :: (sendErrorMessage ctx beh fileFailText).fst, Except.error e)

/-- `answerInlineQuery` from the source: answer only when the kind is
inline and the inline query id is truthy; failures are logged only. -/
def answerInlineQuery (ctx : TelegramExecutionContext) (beh : ApiBehavior)
    (results : List TelegramInlineQueryResult) : ReplyResult :=
  if ctx.update_type = "inline" ∧ truthyStr (ctx.update.inline_query.map fun q => q.id) = true then
    swallowCall beh (ApiCall.answerInline ctx.bot.api (answerInlineParams ctx results))
  else ([], Except.ok none)

/-- The classifier predicate: a photo field is present on the message. -/
def photoPresent (u : TelegramUpdate) : Bool :=
  (u.message.bind TelegramMessage.photo).isSome

/-- The classifier predicate: message text is present (truthy). -/
def textPresent (u : TelegramUpdate) : Bool :=
  truthyStr (u.message.bind TelegramMessage.text)

/-- The classifier predicate: an inline query with a nonempty query. -/
def inlineQueryNonempty (u : TelegramUpdate) : Bool :=
  truthyStr (u.inline_query.map TelegramInlineQuery.query)

/-- The classifier predicate: a document field is present on the message. -/
def documentPresent (u : TelegramUpdate) : Bool :=
  (u.message.bind TelegramMessage.document).isSome

/-- The classifier predicate: a callback query id is present (truthy). -/
def callbackIdPresent (u : TelegramUpdate) : Bool :=
  truthyStr (u.callback_query.map TelegramCallbackQuery.id)

/-- The classifier predicate: a business message is present. -/
def businessMessagePresent (u : TelegramUpdate) : Bool :=
  u.business_message.isSome

/-- The closed set of kind tags the classifier may return. -/
def updateKindTags : List String :=
  ["photo", "message", "inline", "document", "callback", "business_message", ""]

/-- C1: the classifier is total — it returns exactly one tag out of the
closed set — and it is the fixed first-match precedence chain over the six
presence predicates: photo, else text, else nonempty inline query, else
document, else callback id, else business message, else the empty tag; so
for an update satisfying several predicates the earlier one wins. -/
theorem C1_classifier_precedence_total (u : TelegramUpdate) :
    determineUpdateType u =
      (if photoPresent u then "photo"
       else if textPresent u then "message"
       else if inlineQueryNonempty u then "inline"
       else if documentPresent u then "document"
       else if callbackIdPresent u then "callback"
       else if businessMessagePresent u then "business_message"
       else "") ∧
    determineUpdateType u ∈ updateKindTags := by
  refine ⟨rfl, ?_⟩
  unfold determineUpdateType updateKindTags
  repeat' split
  all_goals simp

/-- A concrete bot identity used by witnesses. -/
def exBot : TelegramBot := { api := "https://api.example/bot", token := "TOKEN" }

/-- A text-message update: chat id 42, message id 7, text "hi". -/
def msgUpdate42 : TelegramUpdate :=
  { message := some { message_id := 7, chat := { id := 42 }, text := some "hi" } }

/-- A photo update: chat id 5, message id 2, one photo. -/
def photoUpdate5 : TelegramUpdate :=
  { message := some { message_id := 2, chat := { id := 5 }, photo := some ["p1"] } }

/-- A business-message update: chat id 9, business connection id "bc1". -/
def busUpdate9 : TelegramUpdate :=
  { business_message := some { chat := { id := 9 }, business_connection_id := "bc1" } }

/-- An inline-query update: id "q1", query "hello". -/
def inlineUpdateQ1 : TelegramUpdate :=
  { inline_query := some { id := "q1", query := "hello" } }

/-- A callback update whose originating message chat id is 0 (falsy). -/
def cbZeroUpdate : TelegramUpdate :=
  { callback_query := some { id := "cb1", message := { message_id := 1, chat := { id := 0 } } } }

/-- A callback update whose originating message chat id is 77 (truthy). -/
def cbUpdate77 : TelegramUpdate :=
  { callback_query := some { id := "cb1", message := { message_id := 4, chat := { id := 77 } } } }

/-- A message update whose chat id is 0 (falsy in JavaScript). -/
def chatZeroUpdate : TelegramUpdate :=
  { message := some { message_id := 3, chat := { id := 0 }, text := some "hi" } }

/-- An API behaviour where every call succeeds with the body "ok". -/
def behOk : ApiBehavior := fun _ => Except.ok "ok"

/-- An API behaviour where every call throws the given error. -/
def behErr (e : String) : ApiBehavior := fun _ => Except.error e

/-- Whether a result is a normal return rather than a propagated error. -/
def exceptOk {α : Type} : Except String α → Bool
  | Except.ok _ => true
  | Except.error _ => false

/-- Whether an API call is a sendMessage (the shape of every degraded
failure-notification send). -/
def isSendMessage : ApiCall → Bool
  | ApiCall.sendMessage _ _ => true
  | _ => false

theorem swallowCall_fst (beh : ApiBehavior) (c : ApiCall) :
    (swallowCall beh c).fst = [c] := by
  unfold swallowCall
  cases beh c <;> rfl

theorem swallowCall_snd_ok (beh : ApiBehavior) (c : ApiCall) :
    exceptOk (swallowCall beh c).snd = true := by
  unfold swallowCall
  cases beh c <;> rfl

theorem swallowCall_ok (beh : ApiBehavior) (c : ApiCall) (r : String)
    (hb : beh c = Except.ok r) : swallowCall beh c = ([c], Except.ok (some r)) := by
  unfold swallowCall
  rw [hb]

theorem swallowCall_error (beh : ApiBehavior) (c : ApiCall) (e : String)
    (hb : beh c = Except.error e) : swallowCall beh c = ([c], Except.ok none) := by
  unfold swallowCall
  rw [hb]

theorem tryCatch_attempt_ok (beh : ApiBehavior) (c : ApiCall)
    (handler : List ApiCall → ReplyResult) (r : String) (hb : beh c = Except.ok r) :
    tryCatchBlock (attemptCall beh c) handler = ([c], Except.ok (some r)) := by
  unfold tryCatchBlock attemptCall
  rw [hb]
  rfl

theorem tryCatch_attempt_error (beh : ApiBehavior) (c : ApiCall)
    (handler : List ApiCall → ReplyResult) (e : String) (hb : beh c = Except.error e) :
    tryCatchBlock (attemptCall beh c) handler = handler [c] := by
  unfold tryCatchBlock attemptCall
  rw [hb]
  rfl

theorem tryCatch_fst_attempt (beh : ApiBehavior) (c : ApiCall)
    (handler : List ApiCall → ReplyResult) (hh : ∀ tr, (handler tr).fst = tr) :
    (tryCatchBlock (attemptCall beh c) handler).fst = [c] := by
  unfold tryCatchBlock attemptCall
  cases beh c with
  | ok r => rfl
  | error e => exact hh [c]

theorem tryCatch_snd_ok (t : ReplyResult) (handler : List ApiCall → ReplyResult)
    (hh : ∀ tr, exceptOk (handler tr).snd = true) :
    exceptOk (tryCatchBlock t handler).snd = true := by
  obtain ⟨tr, r⟩ := t
  cases r with
  | ok v => rfl
  | error e => exact hh tr

theorem tryCatch_of_ok (t : ReplyResult) (handler : List ApiCall → ReplyResult)
    (h : exceptOk t.snd = true) : tryCatchBlock t handler = t := by
  obtain ⟨tr, r⟩ := t
  cases r with
  | ok v => rfl
  | error e => exact absurd h (by simp [exceptOk])

theorem sendErrorMessage_fst_direct (ctx : TelegramExecutionContext) (beh : ApiBehavior)
    (text : String)
    (h : ctx.update_type = "message" ∨ ctx.update_type = "photo" ∨ ctx.update_type = "document") :
    (sendErrorMessage ctx beh text).fst =
      [ApiCall.sendMessage ctx.bot.api (errorDirectParams ctx text)] := by
  unfold sendErrorMessage
  rw [if_pos h]
  exact swallowCall_fst beh _

theorem sendErrorMessage_snd_ok (ctx : TelegramExecutionContext) (beh : ApiBehavior)
    (text : String) : exceptOk (sendErrorMessage ctx beh text).snd = true := by
  unfold sendErrorMessage
  repeat' split
  any_goals exact swallowCall_snd_ok beh _
  rfl

theorem replyInline_snd_ok (ctx : TelegramExecutionContext) (beh : ApiBehavior)
    (title message parse_mode : String) :
    exceptOk (replyInline ctx beh title message parse_mode).snd = true := by
  unfold replyInline
  split
  · exact swallowCall_snd_ok beh _
  · rfl

theorem jsLookup_append_right (o l : TgParams) (k : String)
    (h : (jsLookup l k).isSome = true) : jsLookup (o ++ l) k = jsLookup l k := by
  unfold jsLookup at *
  rw [List.reverse_append, List.find?_append]
  cases hf : (l.reverse.find? fun kv => kv.fst == k) with
  | some v => simp [hf]
  | none => rw [hf] at h; simp at h

theorem jsLookup_append_not_right (o l : TgParams) (k : String)
    (h : jsLookup l k = none) : jsLookup (o ++ l) k = jsLookup o k := by
  unfold jsLookup at *
  rw [List.reverse_append, List.find?_append]
  cases hf : (l.reverse.find? fun kv => kv.fst == k) with
  | some v => rw [hf] at h; simp at h
  | none => simp [hf]

/-- C2 (amended): reply routes by the kind tag: for message/photo/document it
issues one sendMessage whose mapping binds chat_id to the context chat id and
reply_to_message_id to the context message id; for business_message it issues
one sendMessage carrying the business connection id and binding no
reply_to_message_id; for callback it issues one sendMessage addressed to the
callback message's chat id, adding no reply_to_message_id binding of its own,
provided that chat id is truthy (nonzero) — with a zero chat id it performs no
call and returns null; for inline it delegates to replyInline with the fixed
title "Response"; for every other kind it performs no call and returns null. -/
theorem C2_reply_routing (ctx : TelegramExecutionContext) (beh : ApiBehavior)
    (message parse_mode : String) (options : TgParams) :
    ((ctx.update_type = "message" ∨ ctx.update_type = "photo" ∨ ctx.update_type = "document") →
      (∀ r, beh (ApiCall.sendMessage ctx.bot.api (replyDirectParams ctx message parse_mode options)) = Except.ok r →
        reply ctx beh message parse_mode options =
          ([ApiCall.sendMessage ctx.bot.api (replyDirectParams ctx message parse_mode options)],
           Except.ok (some r))) ∧
      jsLookup (replyDirectParams ctx message parse_mode options) "chat_id" =
        some (TgValue.str (getChatId ctx.update)) ∧
      jsLookup (replyDirectParams ctx message parse_mode options) "reply_to_message_id" =
        some (TgValue.str (getMessageId ctx.update))) ∧
    (ctx.update_type = "business_message" →
      (∀ r, beh (ApiCall.sendMessage ctx.bot.api (replyBusinessParams ctx message parse_mode)) = Except.ok r →
        reply ctx beh message parse_mode options =
          ([ApiCall.sendMessage ctx.bot.api (replyBusinessParams ctx message parse_mode)],
           Except.ok (some r))) ∧
      jsLookup (replyBusinessParams ctx message parse_mode) "business_connection_id" =
        some (TgValue.str (businessConnectionId ctx.update)) ∧
      jsLookup (replyBusinessParams ctx message parse_mode) "reply_to_message_id" = none) ∧
    (ctx.update_type = "callback" →
      (truthyInt (callbackChatId ctx.update) = true →
        (∀ r, beh (ApiCall.sendMessage ctx.bot.api (replyCallbackParams ctx message parse_mode options)) = Except.ok r →
          reply ctx beh message parse_mode options =
            ([ApiCall.sendMessage ctx.bot.api (replyCallbackParams ctx message parse_mode options)],
             Except.ok (some r))) ∧
        jsLookup (replyCallbackParams ctx message parse_mode options) "chat_id" =
          some (TgValue.str (toString ((callbackChatId ctx.update).getD 0))) ∧
        jsLookup (replyCallbackParams ctx message parse_mode options) "reply_to_message_id" =
          jsLookup options "reply_to_message_id") ∧
      (truthyInt (callbackChatId ctx.update) = false →
        reply ctx beh message parse_mode options = ([], Except.ok none))) ∧
    (ctx.update_type = "inline" →
      reply ctx beh message parse_mode options = replyInline ctx beh "Response" message parse_mode) ∧
    (ctx.update_type ≠ "message" → ctx.update_type ≠ "photo" → ctx.update_type ≠ "document" →
     ctx.update_type ≠ "business_message" → ctx.update_type ≠ "callback" → ctx.update_type ≠ "inline" →
      reply ctx beh message parse_mode options = ([], Except.ok none)) := by
  refine ⟨?_, ?_, ?_, ?_, ?_⟩
  · intro h
    refine ⟨?_, ?_, ?_⟩
    · intro r hb
      unfold reply
      rcases h with h | h | h <;> rw [h] <;> exact tryCatch_attempt_ok beh _ _ r hb
    · unfold replyDirectParams
      rw [jsLookup_append_right] <;> simp [jsLookup]
    · unfold replyDirectParams
      rw [jsLookup_append_right] <;> simp [jsLookup]
  · intro h
    refine ⟨?_, ?_, ?_⟩
    · intro r hb
      unfold reply
      rw [h]
      exact tryCatch_attempt_ok beh _ _ r hb
    · simp [jsLookup, replyBusinessParams]
    · simp [jsLookup, replyBusinessParams]
  · intro h
    constructor
    · intro ht
      refine ⟨?_, ?_, ?_⟩
      · intro r hb
        unfold reply
        rw [h, if_pos ht]
        exact tryCatch_attempt_ok beh _ _ r hb
      · unfold replyCallbackParams
        rw [jsLookup_append_right] <;> simp [jsLookup]
      · unfold replyCallbackParams
        rw [jsLookup_append_not_right]
        simp [jsLookup]
    · intro hf
      unfold reply
      rw [h]
      simp only [hf]
      rfl
  · intro h
    unfold reply
    rw [h]
    exact tryCatch_of_ok _ _ (replyInline_snd_ok ctx beh "Response" message parse_mode)
  · intro h1 h2 h3 h4 h5 h6
    unfold reply
    split
    all_goals first
      | rfl
      | (exfalso; simp_all)

/-- C2 witness: the concrete scenario of the claim — kind message, chat id 42,
message id 7, reply("hi","HTML") issues one sendMessage with the mapping
chat_id "42", reply_to_message_id "7", text "hi", parse_mode "HTML". -/
theorem C2_reply_routing_witness :
    reply (mkContext exBot msgUpdate42) behOk "hi" "HTML" [] =
      ([ApiCall.sendMessage exBot.api
         [("chat_id", TgValue.str "42"), ("reply_to_message_id", TgValue.str "7"),
          ("text", TgValue.str "hi"), ("parse_mode", TgValue.str "HTML")]],
       Except.ok (some "ok")) :=
  ((C2_reply_routing (mkContext exBot msgUpdate42) behOk "hi" "HTML" []).1
    (Or.inl rfl)).1 "ok" rfl

/-- C2 counterexample: a reachable callback-kind context whose originating
message chat id is 0 (falsy in JavaScript): reply performs no API call and
returns null, while the claim demands one sendMessage addressed to the
callback query's originating message chat id. -/
theorem C2_reply_callback_counterexample :
    (mkContext exBot cbZeroUpdate).update_type = "callback" ∧
    reply (mkContext exBot cbZeroUpdate) behOk "hi" "" [] = ([], Except.ok none) :=
  ⟨rfl, rfl⟩

/-- C3 (amended): replyVideo does not share replyPhoto's routing shape: its
direct branch covers only the message kind — for a photo-kind context it
performs no API call and returns null — while for kind inline it issues one
answerInline whose single result is a video-result wrapping the given video,
and for every other kind it performs no call and returns null. -/
theorem C3_replyVideo_routing (ctx : TelegramExecutionContext) (beh : ApiBehavior)
    (video : String) (options : TgParams) :
    (ctx.update_type = "message" →
      ∀ r, beh (ApiCall.sendVideo ctx.bot.api (sendVideoParams ctx video options)) = Except.ok r →
        replyVideo ctx beh video options =
          ([ApiCall.sendVideo ctx.bot.api (sendVideoParams ctx video options)],
           Except.ok (some r)) ∧
        jsLookup (sendVideoParams ctx video options) "chat_id" =
          some (TgValue.str (getChatId ctx.update)) ∧
        jsLookup (sendVideoParams ctx video options) "reply_to_message_id" =
          some (TgValue.str (getMessageId ctx.update))) ∧
    (ctx.update_type = "inline" →
      ∀ r, beh (ApiCall.answerInline ctx.bot.api (videoInlineParams ctx video options)) = Except.ok r →
        replyVideo ctx beh video options =
          ([ApiCall.answerInline ctx.bot.api (videoInlineParams ctx video options)],
           Except.ok (some r)) ∧
        jsLookup (videoInlineParams ctx video options) "results" =
          some (TgValue.arr [TelegramInlineQueryResult.video video])) ∧
    (ctx.update_type ≠ "message" → ctx.update_type ≠ "inline" →
      replyVideo ctx beh video options = ([], Except.ok none)) := by
  refine ⟨?_, ?_, ?_⟩
  · intro h r hb
    refine ⟨?_, ?_, ?_⟩
    · unfold replyVideo
      rw [h]
      exact tryCatch_attempt_ok beh _ _ r hb
    · unfold sendVideoParams
      rw [jsLookup_append_right] <;> simp [jsLookup]
    · unfold sendVideoParams
      rw [jsLookup_append_right] <;> simp [jsLookup]
  · intro h r hb
    refine ⟨?_, ?_⟩
    · unfold replyVideo
      rw [h]
      exact tryCatch_attempt_ok beh _ _ r hb
    · unfold videoInlineParams
      rw [jsLookup_append_right] <;> simp [jsLookup]
  · intro h1 h2
    unfold replyVideo
    split
    all_goals first
      | rfl
      | (exfalso; simp_all)

/-- C3 witness: on a message-kind context, replyVideo issues one sendVideo
with the context chat id and reply-to message id. -/
theorem C3_replyVideo_routing_witness :
    replyVideo (mkContext exBot msgUpdate42) behOk "vid" [] =
      ([ApiCall.sendVideo exBot.api
         [("chat_id", TgValue.str "42"), ("reply_to_message_id", TgValue.str "7"),
          ("video", TgValue.str "vid")]],
       Except.ok (some "ok")) :=
  (((C3_replyVideo_routing (mkContext exBot msgUpdate42) behOk "vid" []).1 rfl "ok" rfl)).1

/-- C3 counterexample: a reachable photo-kind context: replyVideo performs no
API call and returns null, while the claim demands one sendVideo for kind
photo just as for kind message. -/
theorem C3_replyVideo_photo_counterexample :
    (mkContext exBot photoUpdate5).update_type = "photo" ∧
    replyVideo (mkContext exBot photoUpdate5) behOk "vid" [] = ([], Except.ok none) :=
  ⟨rfl, rfl⟩

/-- C5: for a message-kind context whose primary sendMessage throws, reply
attempts exactly one degraded notification send addressed to the same chat
id (both failures are only logged) and returns null to its caller instead
of raising. -/
theorem C5_reply_message_failure (ctx : TelegramExecutionContext) (beh : ApiBehavior)
    (message parse_mode : String) (options : TgParams) (err : String)
    (hk : ctx.update_type = "message")
    (hb : beh (ApiCall.sendMessage ctx.bot.api (replyDirectParams ctx message parse_mode options)) =
      Except.error err) :
    reply ctx beh message parse_mode options =
      ([ApiCall.sendMessage ctx.bot.api (replyDirectParams ctx message parse_mode options),
        ApiCall.sendMessage ctx.bot.api (errorDirectParams ctx replyFailText)],
       Except.ok none) ∧
    jsLookup (errorDirectParams ctx replyFailText) "chat_id" =
      some (TgValue.str (getChatId ctx.update)) := by
  constructor
  · unfold reply
    rw [hk]
    exact tryCatch_attempt_error beh _ _ err hb
  · simp [jsLookup, errorDirectParams]

/-- C5 witness: the concrete message-kind context (chat 42) under a failing
API: one primary attempt, one degraded notification to chat 42, null result. -/
theorem C5_reply_message_failure_witness :
    reply (mkContext exBot msgUpdate42) (behErr "E") "hi" "" [] =
      ([ApiCall.sendMessage exBot.api
         [("chat_id", TgValue.str "42"), ("reply_to_message_id", TgValue.str "7"),
          ("text", TgValue.str "hi"), ("parse_mode", TgValue.str "")],
        ApiCall.sendMessage exBot.api
         [("chat_id", TgValue.str "42"), ("text", TgValue.str replyFailText),
          ("parse_mode", TgValue.str "")]],
       Except.ok none) :=
  (C5_reply_message_failure (mkContext exBot msgUpdate42) (behErr "E") "hi" "" [] "E" rfl rfl).1

/-- C6: getFile passes a successful fetch response through unchanged; on a
thrown fetch it runs the degraded-notification routine (for the direct
kinds, one sendMessage to the context chat id) and afterwards re-raises
the original error to the caller. -/
theorem C6_getFile_passthrough_rethrow (ctx : TelegramExecutionContext) (beh : ApiBehavior)
    (file_id : String) :
    (∀ r, beh (getFileCall ctx file_id) = Except.ok r →
      getFile ctx beh file_id = ([getFileCall ctx file_id], Except.ok r)) ∧
    (∀ e, beh (getFileCall ctx file_id) = Except.error e →
      getFile ctx beh file_id =
        (getFileCall ctx file_id :: (sendErrorMessage ctx beh fileFailText).fst,
         Except.error e) ∧
      ((ctx.update_type = "message" ∨ ctx.update_type = "photo" ∨ ctx.update_type = "document") →
        (sendErrorMessage ctx beh fileFailText).fst =
          [ApiCall.sendMessage ctx.bot.api (errorDirectParams ctx fileFailText)])) := by
  constructor
  · intro r hb
    unfold getFile
    rw [hb]
  · intro e hb
    refine ⟨?_, ?_⟩
    · unfold getFile
      rw [hb]
    · intro h
      exact sendErrorMessage_fst_direct ctx beh fileFailText h

/-- C6 witness: at a concrete message-kind context, a successful fetch is
passed through, and a failing fetch triggers one degraded notification and
re-raises the original error "E". -/
theorem C6_getFile_passthrough_rethrow_witness :
    getFile (mkContext exBot msgUpdate42) behOk "f1" =
      ([getFileCall (mkContext exBot msgUpdate42) "f1"], Except.ok "ok") ∧
    getFile (mkContext exBot msgUpdate42) (behErr "E") "f1" =
      ([getFileCall (mkContext exBot msgUpdate42) "f1",
        ApiCall.sendMessage exBot.api
         [("chat_id", TgValue.str "42"), ("text", TgValue.str fileFailText),
          ("parse_mode", TgValue.str "")]],
       Except.error "E") :=
  ⟨(C6_getFile_passthrough_rethrow (mkContext exBot msgUpdate42) behOk "f1").1 "ok" rfl,
   ((C6_getFile_passthrough_rethrow (mkContext exBot msgUpdate42) (behErr "E") "f1").2 "E" rfl).1⟩

/-- C7 (amended): the chat-id accessor is total and never throws, but it
branches on field truthiness, not on the kind tag: it returns the message
chat id stringified whenever the update carries a message whose chat id is
truthy (nonzero) — whatever the kind — else the business message chat id
stringified when that is truthy, else the empty-string sentinel (in
particular a message-kind update whose chat id is 0 gets the sentinel, not
"0"). -/
theorem C7_getChatId_total (u : TelegramUpdate) :
    (∀ m : TelegramMessage, u.message = some m → m.chat.id ≠ 0 →
      getChatId u = toString m.chat.id) ∧
    (truthyInt (u.message.map fun m => m.chat.id) = false →
      ∀ b : TelegramBusinessMessage, u.business_message = some b → b.chat.id ≠ 0 →
        getChatId u = toString b.chat.id) ∧
    (truthyInt (u.message.map fun m => m.chat.id) = false →
      truthyInt (u.business_message.map fun b => b.chat.id) = false →
        getChatId u = "") := by
  refine ⟨?_, ?_, ?_⟩
  · intro m hm hz
    simp [getChatId, hm, truthyInt, hz]
  · intro hf b hb hz
    unfold getChatId
    rw [if_neg (by simp [hf]), hb, if_pos (by simp [truthyInt, hz])]
    simp
  · intro hf hg
    simp [getChatId, hf, hg]

/-- C7 witness: the accessor at concrete updates — message chat 42 gives
"42", business chat 9 gives "9". -/
theorem C7_getChatId_total_witness :
    getChatId msgUpdate42 = "42" ∧ getChatId busUpdate9 = "9" := by
  constructor
  · have h := (C7_getChatId_total msgUpdate42).1
      { message_id := 7, chat := { id := 42 }, text := some "hi" } rfl (by decide)
    exact h.trans (by decide)
  · have h := (C7_getChatId_total busUpdate9).2.1 rfl
      { chat := { id := 9 }, business_connection_id := "bc1" } rfl (by decide)
    exact h.trans (by decide)

/-- C7 counterexample: a reachable message-kind context whose chat id is 0
(falsy in JavaScript): the accessor returns the empty-string sentinel, not
the stringified chat id "0" the claim requires. -/
theorem C7_getChatId_counterexample :
    (mkContext exBot chatZeroUpdate).update_type = "message" ∧
    getChatId chatZeroUpdate = "" ∧ getChatId chatZeroUpdate ≠ "0" := by
  refine ⟨rfl, rfl, by decide⟩

/-- C8: sendTyping routes by kind: message/photo/document issue exactly one
sendChatAction whose mapping is the context chat id with action "typing";
business_message issues exactly one sendChatAction carrying the business
connection id together with the chat id and action "typing", binding no
reply-to message id; every other kind performs no call and returns null. -/
theorem C8_sendTyping_routing (ctx : TelegramExecutionContext) (beh : ApiBehavior) :
    ((ctx.update_type = "message" ∨ ctx.update_type = "photo" ∨ ctx.update_type = "document") →
      (sendTyping ctx beh).fst = [ApiCall.sendChatAction ctx.bot.api (typingParams ctx)] ∧
      jsLookup (typingParams ctx) "chat_id" = some (TgValue.str (getChatId ctx.update)) ∧
      jsLookup (typingParams ctx) "action" = some (TgValue.str "typing") ∧
      (∀ r, beh (ApiCall.sendChatAction ctx.bot.api (typingParams ctx)) = Except.ok r →
        sendTyping ctx beh =
          ([ApiCall.sendChatAction ctx.bot.api (typingParams ctx)], Except.ok (some r)))) ∧
    (ctx.update_type = "business_message" →
      (sendTyping ctx beh).fst = [ApiCall.sendChatAction ctx.bot.api (typingBusinessParams ctx)] ∧
      jsLookup (typingBusinessParams ctx) "business_connection_id" =
        some (TgValue.str (businessConnectionId ctx.update)) ∧
      jsLookup (typingBusinessParams ctx) "chat_id" = some (TgValue.str (getChatId ctx.update)) ∧
      jsLookup (typingBusinessParams ctx) "action" = some (TgValue.str "typing") ∧
      jsLookup (typingBusinessParams ctx) "reply_to_message_id" = none ∧
      (∀ r, beh (ApiCall.sendChatAction ctx.bot.api (typingBusinessParams ctx)) = Except.ok r →
        sendTyping ctx beh =
          ([ApiCall.sendChatAction ctx.bot.api (typingBusinessParams ctx)], Except.ok (some r)))) ∧
    (ctx.update_type ≠ "message" → ctx.update_type ≠ "photo" → ctx.update_type ≠ "document" →
     ctx.update_type ≠ "business_message" →
      sendTyping ctx beh = ([], Except.ok none)) := by
  refine ⟨?_, ?_, ?_⟩
  · intro h
    refine ⟨?_, by simp [jsLookup, typingParams], by simp [jsLookup, typingParams], ?_⟩
    · unfold sendTyping
      rcases h with h | h | h <;> rw [h] <;>
        exact tryCatch_fst_attempt beh _ _ (fun tr => rfl)
    · intro r hb
      unfold sendTyping
      rcases h with h | h | h <;> rw [h] <;> exact tryCatch_attempt_ok beh _ _ r hb
  · intro h
    refine ⟨?_, by simp [jsLookup, typingBusinessParams],
      by simp [jsLookup, typingBusinessParams], by simp [jsLookup, typingBusinessParams],
      by simp [jsLookup, typingBusinessParams], ?_⟩
    · unfold sendTyping
      rw [h]
      exact tryCatch_fst_attempt beh _ _ (fun tr => rfl)
    · intro r hb
      unfold sendTyping
      rw [h]
      exact tryCatch_attempt_ok beh _ _ r hb
  · intro h1 h2 h3 h4
    unfold sendTyping
    split
    all_goals first
      | rfl
      | (exfalso; simp_all)

/-- C8 witness: the concrete scenario of the claim — a business_message
context with chat id 9 and business connection id "bc1": the chat action
call carries business_connection_id "bc1", chat_id "9", action "typing". -/
theorem C8_sendTyping_routing_witness :
    (sendTyping (mkContext exBot busUpdate9) behOk).fst =
      [ApiCall.sendChatAction exBot.api
        [("business_connection_id", TgValue.str "bc1"), ("chat_id", TgValue.str "9"),
         ("action", TgValue.str "typing")]] :=
  ((C8_sendTyping_routing (mkContext exBot busUpdate9) behOk).2.1 rfl).1

theorem sendTyping_fst_direct (ctx : TelegramExecutionContext) (beh : ApiBehavior)
    (h : ctx.update_type = "message" ∨ ctx.update_type = "photo" ∨ ctx.update_type = "document") :
    (sendTyping ctx beh).fst = [ApiCall.sendChatAction ctx.bot.api (typingParams ctx)] := by
  unfold sendTyping
  rcases h with h | h | h <;> rw [h] <;>
    exact tryCatch_fst_attempt beh _ _ (fun tr => rfl)

theorem sendTyping_fst_business (ctx : TelegramExecutionContext) (beh : ApiBehavior)
    (h : ctx.update_type = "business_message") :
    (sendTyping ctx beh).fst = [ApiCall.sendChatAction ctx.bot.api (typingBusinessParams ctx)] := by
  unfold sendTyping
  rw [h]
  exact tryCatch_fst_attempt beh _ _ (fun tr => rfl)

/-- Two sequential invocations of `sendTyping` on the same context: no
method assigns to any field after the constructor, so the second
invocation observes the same context value; the combined trace is the
concatenation of the two traces. -/
def sendTypingTwice (ctx : TelegramExecutionContext) (beh : ApiBehavior) : List ApiCall :=
  (sendTyping ctx beh).fst ++ (sendTyping ctx beh).fst

/-- C9: the kind tag is computed once at construction, and calling
sendTyping twice in sequence issues two typing-action calls with identical
parameter mappings — whenever the double trace consists of two calls they
are equal, and for the routed kinds it is exactly the same chat-action
call twice. -/
theorem C9_sendTyping_twice_identical (bot : TelegramBot) (u : TelegramUpdate)
    (beh : ApiBehavior) :
    (mkContext bot u).update_type = determineUpdateType u ∧
    sendTypingTwice (mkContext bot u) beh =
      (sendTyping (mkContext bot u) beh).fst ++ (sendTyping (mkContext bot u) beh).fst ∧
    (∀ c1 c2, sendTypingTwice (mkContext bot u) beh = [c1, c2] → c1 = c2) ∧
    ((mkContext bot u).update_type = "message" ∨ (mkContext bot u).update_type = "photo" ∨
       (mkContext bot u).update_type = "document" →
      sendTypingTwice (mkContext bot u) beh =
        [ApiCall.sendChatAction bot.api (typingParams (mkContext bot u)),
         ApiCall.sendChatAction bot.api (typingParams (mkContext bot u))]) ∧
    ((mkContext bot u).update_type = "business_message" →
      sendTypingTwice (mkContext bot u) beh =
        [ApiCall.sendChatAction bot.api (typingBusinessParams (mkContext bot u)),
         ApiCall.sendChatAction bot.api (typingBusinessParams (mkContext bot u))]) := by
  refine ⟨rfl, rfl, ?_, ?_, ?_⟩
  · intro c1 c2 h
    have hl : (sendTyping (mkContext bot u) beh).fst.length +
        (sendTyping (mkContext bot u) beh).fst.length = 2 := by
      have h2 := congrArg List.length h
      simpa [sendTypingTwice] using h2
    have h1 : (sendTyping (mkContext bot u) beh).fst.length = 1 := by omega
    obtain ⟨c, hc⟩ := List.length_eq_one.mp h1
    rw [sendTypingTwice, hc] at h
    simp at h
    exact h.1.symm.trans h.2
  · intro h
    rw [sendTypingTwice, sendTyping_fst_direct _ beh h]
    rfl
  · intro h
    rw [sendTypingTwice, sendTyping_fst_business _ beh h]
    rfl

/-- C9 witness: two sequential sendTyping invocations on the concrete
business context issue the identical chat-action call twice. -/
theorem C9_sendTyping_twice_identical_witness :
    sendTypingTwice (mkContext exBot busUpdate9) behOk =
      [ApiCall.sendChatAction exBot.api
        [("business_connection_id", TgValue.str "bc1"), ("chat_id", TgValue.str "9"),
         ("action", TgValue.str "typing")],
       ApiCall.sendChatAction exBot.api
        [("business_connection_id", TgValue.str "bc1"), ("chat_id", TgValue.str "9"),
         ("action", TgValue.str "typing")]] :=
  (C9_sendTyping_twice_identical exBot busUpdate9 behOk).2.2.2.2 rfl

/-- C10: on the business_message branch of reply, the caller-supplied
options are not forwarded — the result is identical for any two options
lists — and the mapping binds exactly the keys chat_id, text,
business_connection_id and parse_mode; by contrast the message/photo/
document and callback branches spread the options into their mappings. -/
theorem C10_reply_business_drops_options (ctx : TelegramExecutionContext) (beh : ApiBehavior)
    (message parse_mode : String) (o o2 : TgParams) :
    (ctx.update_type = "business_message" →
      reply ctx beh message parse_mode o = reply ctx beh message parse_mode o2 ∧
      (reply ctx beh message parse_mode o).fst =
        [ApiCall.sendMessage ctx.bot.api (replyBusinessParams ctx message parse_mode)] ∧
      jsKeys (replyBusinessParams ctx message parse_mode) =
        ["chat_id", "text", "business_connection_id", "parse_mode"]) ∧
    (ctx.update_type = "message" →
      (reply ctx beh message parse_mode o).fst.head? =
        some (ApiCall.sendMessage ctx.bot.api (replyDirectParams ctx message parse_mode o)) ∧
      jsKeys (replyDirectParams ctx message parse_mode o) =
        jsKeys o ++ ["chat_id", "reply_to_message_id", "text", "parse_mode"]) ∧
    (ctx.update_type = "callback" →
      jsKeys (replyCallbackParams ctx message parse_mode o) =
        jsKeys o ++ ["chat_id", "text", "parse_mode"]) := by
  refine ⟨?_, ?_, ?_⟩
  · intro h
    refine ⟨?_, ?_, ?_⟩
    · unfold reply
      rw [h]
      exact rfl
    · unfold reply
      rw [h]
      exact tryCatch_fst_attempt beh _ _ (fun tr => rfl)
    · simp [jsKeys, replyBusinessParams]
  · intro h
    refine ⟨?_, ?_⟩
    · unfold reply
      rw [h]
      unfold tryCatchBlock attemptCall
      cases beh (ApiCall.sendMessage ctx.bot.api (replyDirectParams ctx message parse_mode o)) <;> rfl
    · simp [jsKeys, replyDirectParams]
  · intro h
    simp [jsKeys, replyCallbackParams]

/-- C10 witness: at the concrete business context, reply with a nonempty
options list equals reply with no options, and the mapping's keys are
exactly the four from the claim. -/
theorem C10_reply_business_drops_options_witness :
    reply (mkContext exBot busUpdate9) behOk "hi" "" [("extra", TgValue.num 1)] =
      reply (mkContext exBot busUpdate9) behOk "hi" "" [] ∧
    jsKeys (replyBusinessParams (mkContext exBot busUpdate9) "hi" "") =
      ["chat_id", "text", "business_connection_id", "parse_mode"] :=
  ⟨((C10_reply_business_drops_options (mkContext exBot busUpdate9) behOk "hi" ""
      [("extra", TgValue.num 1)] []).1 rfl).1,
   ((C10_reply_business_drops_options (mkContext exBot busUpdate9) behOk "hi" ""
      [("extra", TgValue.num 1)] []).1 rfl).2.2⟩

/-- C4 (amended): no reply-router operation ever propagates an API error to
its caller, but only reply, replyPhoto and replyVideo attempt a degraded
localized failure-notification send: reply's own catch sends it (keyed by
chat id) only for the message/photo/document kinds — a failing
business_message-kind or callback-kind reply leaves only the primary call
in the trace — while replyPhoto and replyVideo route it through
sendErrorMessage; sendTyping (on both its routed kind classes, direct and
business_message), replyInline and answerInlineQuery log only and attempt
no follow-up call after a failure. -/
theorem C4_error_isolation (ctx : TelegramExecutionContext) (beh : ApiBehavior)
    (err message parse_mode caption photo video title : String)
    (options : TgParams) (results : List TelegramInlineQueryResult) :
    exceptOk (reply ctx beh message parse_mode options).snd = true ∧
    exceptOk (replyPhoto ctx beh photo caption options).snd = true ∧
    exceptOk (replyVideo ctx beh video options).snd = true ∧
    exceptOk (sendTyping ctx beh).snd = true ∧
    exceptOk (replyInline ctx beh title message parse_mode).snd = true ∧
    exceptOk (answerInlineQuery ctx beh results).snd = true ∧
    ((ctx.update_type = "message" ∨ ctx.update_type = "photo" ∨ ctx.update_type = "document") →
      reply ctx (behErr err) message parse_mode options =
        ([ApiCall.sendMessage ctx.bot.api (replyDirectParams ctx message parse_mode options),
          ApiCall.sendMessage ctx.bot.api (errorDirectParams ctx replyFailText)],
         Except.ok none)) ∧
    (ctx.update_type = "business_message" →
      reply ctx (behErr err) message parse_mode options =
        ([ApiCall.sendMessage ctx.bot.api (replyBusinessParams ctx message parse_mode)],
         Except.ok none)) ∧
    (ctx.update_type = "callback" → truthyInt (callbackChatId ctx.update) = true →
      reply ctx (behErr err) message parse_mode options =
        ([ApiCall.sendMessage ctx.bot.api (replyCallbackParams ctx message parse_mode options)],
         Except.ok none)) ∧
    ((ctx.update_type = "message" ∨ ctx.update_type = "photo" ∨ ctx.update_type = "document") →
      sendTyping ctx (behErr err) =
        ([ApiCall.sendChatAction ctx.bot.api (typingParams ctx)], Except.ok none)) ∧
    (ctx.update_type = "business_message" →
      sendTyping ctx (behErr err) =
        ([ApiCall.sendChatAction ctx.bot.api (typingBusinessParams ctx)], Except.ok none)) ∧
    (ctx.update_type = "inline" →
      replyInline ctx (behErr err) title message parse_mode =
        ([ApiCall.answerInline ctx.bot.api (articleInlineParams ctx title message parse_mode)],
         Except.ok none)) ∧
    (ctx.update_type = "inline" →
      truthyStr (ctx.update.inline_query.map fun q => q.id) = true →
      answerInlineQuery ctx (behErr err) results =
        ([ApiCall.answerInline ctx.bot.api (answerInlineParams ctx results)], Except.ok none)) ∧
    ((ctx.update_type = "message" ∨ ctx.update_type = "photo") →
      replyPhoto ctx (behErr err) photo caption options =
        ([ApiCall.sendPhoto ctx.bot.api (sendPhotoParams ctx photo caption options),
          ApiCall.sendMessage ctx.bot.api (errorDirectParams ctx photoFailText)],
         Except.ok none)) ∧
    (ctx.update_type = "message" →
      replyVideo ctx (behErr err) video options =
        ([ApiCall.sendVideo ctx.bot.api (sendVideoParams ctx video options),
          ApiCall.sendMessage ctx.bot.api (errorDirectParams ctx videoFailText)],
         Except.ok none)) := by
  refine ⟨?_, ?_, ?_, ?_, ?_, ?_, ?_, ?_, ?_, ?_, ?_, ?_, ?_, ?_, ?_⟩
  · unfold reply
    apply tryCatch_snd_ok
    intro tr
    split <;> rfl
  · unfold replyPhoto
    apply tryCatch_snd_ok
    intro tr
    rfl
  · unfold replyVideo
    apply tryCatch_snd_ok
    intro tr
    rfl
  · unfold sendTyping
    apply tryCatch_snd_ok
    intro tr
    rfl
  · exact replyInline_snd_ok ctx beh title message parse_mode
  · unfold answerInlineQuery
    split
    · exact swallowCall_snd_ok beh _
    · rfl
  · intro h
    unfold reply
    rcases h with h | h | h <;> rw [h] <;>
      exact tryCatch_attempt_error (behErr err) _ _ err rfl
  · intro h
    unfold reply
    rw [h]
    exact tryCatch_attempt_error (behErr err) _ _ err rfl
  · intro h ht
    unfold reply
    rw [h, if_pos ht]
    exact tryCatch_attempt_error (behErr err) _ _ err rfl
  · intro h
    unfold sendTyping
    rcases h with h | h | h <;> rw [h] <;>
      exact tryCatch_attempt_error (behErr err) _ _ err rfl
  · intro h
    unfold sendTyping
    rw [h]
    exact tryCatch_attempt_error (behErr err) _ _ err rfl
  · intro h
    unfold replyInline
    rw [if_pos h]
    exact swallowCall_error (behErr err) _ err rfl
  · intro h hq
    unfold answerInlineQuery
    rw [if_pos ⟨h, hq⟩]
    exact swallowCall_error (behErr err) _ err rfl
  · intro h
    have hd : ctx.update_type = "message" ∨ ctx.update_type = "photo" ∨ ctx.update_type = "document" := by
      rcases h with h | h
      · exact Or.inl h
      · exact Or.inr (Or.inl h)
    have h1 : replyPhoto ctx (behErr err) photo caption options =
        ([ApiCall.sendPhoto ctx.bot.api (sendPhotoParams ctx photo caption options)] ++
          (sendErrorMessage ctx (behErr err) photoFailText).fst, Except.ok none) := by
      unfold replyPhoto
      rcases h with h | h <;> rw [h] <;>
        exact tryCatch_attempt_error (behErr err) _ _ err rfl
    rw [h1, sendErrorMessage_fst_direct ctx (behErr err) photoFailText hd]
    rfl
  · intro h
    have h1 : replyVideo ctx (behErr err) video options =
        ([ApiCall.sendVideo ctx.bot.api (sendVideoParams ctx video options)] ++
          (sendErrorMessage ctx (behErr err) videoFailText).fst, Except.ok none) := by
      unfold replyVideo
      rw [h]
      exact tryCatch_attempt_error (behErr err) _ _ err rfl
    rw [h1, sendErrorMessage_fst_direct ctx (behErr err) videoFailText (Or.inl h)]
    rfl

/-- C4 witness: under a failing API, reply still returns normally;
sendTyping attempts no follow-up call on either a message-kind or a
business_message-kind context; a callback-kind reply failure leaves only
the primary call; and replyPhoto attempts exactly one degraded
notification. -/
theorem C4_error_isolation_witness :
    exceptOk (reply (mkContext exBot msgUpdate42) (behErr "E") "hi" "" []).snd = true ∧
    sendTyping (mkContext exBot msgUpdate42) (behErr "E") =
      ([ApiCall.sendChatAction exBot.api (typingParams (mkContext exBot msgUpdate42))],
       Except.ok none) ∧
    sendTyping (mkContext exBot busUpdate9) (behErr "E") =
      ([ApiCall.sendChatAction exBot.api (typingBusinessParams (mkContext exBot busUpdate9))],
       Except.ok none) ∧
    reply (mkContext exBot cbUpdate77) (behErr "E") "hi" "" [] =
      ([ApiCall.sendMessage exBot.api
         (replyCallbackParams (mkContext exBot cbUpdate77) "hi" "" [])],
       Except.ok none) ∧
    replyPhoto (mkContext exBot msgUpdate42) (behErr "E") "p" "" [] =
      ([ApiCall.sendPhoto exBot.api (sendPhotoParams (mkContext exBot msgUpdate42) "p" "" []),
        ApiCall.sendMessage exBot.api (errorDirectParams (mkContext exBot msgUpdate42) photoFailText)],
       Except.ok none) := by
  have hm := C4_error_isolation (mkContext exBot msgUpdate42) (behErr "E") "E" "hi" "" "" "p" "v" "t" [] []
  have hb := C4_error_isolation (mkContext exBot busUpdate9) (behErr "E") "E" "hi" "" "" "p" "v" "t" [] []
  have hc := C4_error_isolation (mkContext exBot cbUpdate77) (behErr "E") "E" "hi" "" "" "p" "v" "t" [] []
  refine ⟨hm.1, ?_, ?_, ?_, ?_⟩
  · exact hm.2.2.2.2.2.2.2.2.2.1 (Or.inl rfl)
  · exact hb.2.2.2.2.2.2.2.2.2.2.1 rfl
  · exact hc.2.2.2.2.2.2.2.2.1 rfl rfl
  · exact hm.2.2.2.2.2.2.2.2.2.2.2.2.2.1 (Or.inl rfl)

/-- C4 counterexample: sendTyping on a reachable message-kind context under
a failing API attempts only the typing call itself — its trace contains no
sendMessage at all — so no degraded localized failure-notification text
send is attempted, contrary to the claim. -/
theorem C4_sendTyping_no_degraded_counterexample :
    sendTyping (mkContext exBot msgUpdate42) (behErr "E") =
      ([ApiCall.sendChatAction exBot.api
         [("chat_id", TgValue.str "42"), ("action", TgValue.str "typing")]],
       Except.ok none) ∧
    ((sendTyping (mkContext exBot msgUpdate42) (behErr "E")).fst.filter isSendMessage) = [] :=
  ⟨rfl, rfl⟩
